import Mathlib

/-!
Arena: node summary rendering and job deletion.

A shallow embedding of

* `pkg/topnode/normal.go` (the normal / no-GPU node variant and its two renderers),
* `pkg/apis/arenaclient/training_client.go` (`TrainingJobClient.Delete`),
* `cmd/arena/commands/serve_delete.go` (`serve delete`),

followed by the properties established about them.

Conventions.  Go `string` is `String`; Go slices are `List`; Go `int` is `Int`.
A `*tabwriter.Writer` is represented by the sequence of `PrintLine` calls made
on it so far, each call recorded with its list of fields.  Calls into packages
that are not embedded here (`helm`, `workflow`, `training`, the cluster
listing helpers) are parameters of the embedding.
-/

set_option autoImplicit false

namespace Arena

/-! ## `strings` and `fmt` -/

/-- Go `strings.Join(elems, sep)`. -/
def stringsJoin (elems : List String) (sep : String) : String :=
  sep.intercalate elems

/-- Go `strings.TrimRight(s, cutset)`: drop every trailing character that occurs in `cutset`. -/
def stringsTrimRight (s cutset : String) : String :=
  ⟨(s.data.reverse.dropWhile (fun c => cutset.data.contains c)).reverse⟩

/-- Go `strings.Trim(s, cutset)`: drop leading and trailing characters that occur in `cutset`. -/
def stringsTrim (s cutset : String) : String :=
  ⟨((s.data.dropWhile (fun c => cutset.data.contains c)).reverse.dropWhile
      (fun c => cutset.data.contains c)).reverse⟩

/-- The `%!(EXTRA string=a, string=b)` suffix Go appends when operands are left over. -/
def fmtExtra : List String → List Char
  | [] => []
  | a :: as =>
    "%!(EXTRA ".data ++ (", ".intercalate ((a :: as).map (fun x => "string=" ++ x))).data ++ [')']

/-- The verb scanner of Go `fmt.Sprintf`, restricted to what the embedded code uses: the verbs
`%v` and `%s` applied to string operands (both print the operand unchanged) and the escape `%%`.
A verb without an operand prints `%!v(MISSING)`, a trailing `%` prints `%!(NOVERB)`, and
left-over operands are reported at the end.  Flags, widths and other verbs are outside this
fragment. -/
def fmtScan : List Char → List String → List Char
  | [], args => fmtExtra args
  | [c], args => (if c = '%' then "%!(NOVERB)".data else [c]) ++ fmtExtra args
  | c :: v :: rest, args =>
    if c = '%' ∧ (v = 'v' ∨ v = 's') then
      match args with
      | a :: as => a.data ++ fmtScan rest as
      | [] => '%' :: '!' :: v :: "(MISSING)".data ++ fmtScan rest []
    else if c = '%' ∧ v = '%' then '%' :: fmtScan rest args
    else c :: fmtScan (v :: rest) args

/-- Go `fmt.Sprintf(format, args...)` for string operands. -/
def Sprintf (format : String) (args : List String) : String :=
  ⟨fmtScan format.data args⟩

/-! ## `pkg/apis/types` (declarations used by the node renderers) -/

/-- Go `types.NodeType`, a string type. -/
abbrev NodeType := String

/-- Go `types.NodeTypeInfo`: one entry of the table `types.NodeTypeSlice`. -/
structure NodeTypeInfo where
  Name : NodeType
  Alias : String
  deriving DecidableEq, Repr

/-- Go `types.CommonNodeInfo`. -/
structure CommonNodeInfo where
  Name : String
  IP : String
  Status : String
  Role : String
  Type' : NodeType
  Description : String
  deriving DecidableEq, Repr

/-- Go `types.NormalNodeInfo`. -/
structure NormalNodeInfo where
  CommonNodeInfo : CommonNodeInfo
  deriving DecidableEq, Repr

/-! ## `pkg/topnode/normal.go` -/

/-- A `*v1.Node` as seen through the accessors of `baseNode` (`Name()`, `IP()`, `Status()`,
`Role()`), which are declared in another file: the node carries the values they return. -/
structure V1Node where
  Name : String
  IP : String
  Status : String
  Role : List String
  deriving DecidableEq, Repr

/-- A `*v1.Pod`; the normal variant never inspects it. -/
structure V1Pod where
  Name : String
  deriving DecidableEq, Repr

/-- Go `buildNodeArgs`; unused by the normal variant. -/
structure buildNodeArgs where
  deriving DecidableEq, Repr

/-- Go `baseNode`. -/
structure baseNode where
  index : Int
  node : V1Node
  pods : List V1Pod
  nodeType : NodeType
  deriving DecidableEq, Repr

/-- Go `normalNode`. -/
structure normalNode where
  node : V1Node
  pods : List V1Pod
  baseNode : baseNode
  deriving DecidableEq, Repr

/-- A call `PrintLine(w, fields...)` appends one record to the writer. -/
abbrev Writer := List (List String)

/-- Go `PrintLine(w, fields...)`. -/
def PrintLine (w : Writer) (fields : List String) : Writer :=
  w ++ [fields]

def NormalNodeDescription : String :=
  "\n  1.This node has none gpu devices\n"

def normalNodeTemplate : String :=
  "\nName:    %v\nStatus:  %v\nRole:    %v\nType:    %v\nAddress: %v\nDescription:\n%v\n-----------------------------------------------------------------------------------------\n"

namespace normalNode

def Name (n : normalNode) : String := n.baseNode.node.Name
def IP (n : normalNode) : String := n.baseNode.node.IP
def Status (n : normalNode) : String := n.baseNode.node.Status
def Role (n : normalNode) : List String := n.baseNode.node.Role
def Type' (n : normalNode) : NodeType := n.baseNode.nodeType

def AllDevicesAreHealthy (_n : normalNode) : Bool := true

end normalNode

section Types

-- The constant `types.NormalNode` and the table `types.NodeTypeSlice` are declared in package
-- `types`; the embedding takes them as parameters.
variable (NormalNode : NodeType) (NodeTypeSlice : List NodeTypeInfo)

/-- Go `NewNormalNode`. -/
def NewNormalNode (node : V1Node) (pods : List V1Pod) (index : Int) (_args : buildNodeArgs) :
    Except String normalNode :=
  .ok { node := node, pods := pods,
        baseNode := { index := index, node := node, pods := pods, nodeType := NormalNode } }

/-- Go `(*normalNode).convert2NodeInfo`. -/
def normalNode.convert2NodeInfo (n : normalNode) : NormalNodeInfo :=
  let role := stringsJoin n.Role ","
  { CommonNodeInfo :=
      { Name := n.Name, IP := n.IP, Status := n.Status, Role := role,
        Type' := NormalNode, Description := NormalNodeDescription } }

/-- Go `(*normalNode).WideFormat`. -/
def normalNode.WideFormat (n : normalNode) : String :=
  let role := stringsJoin n.Role ","
  let role := if role = "" then "<none>" else role
  let nodeInfo := n.convert2NodeInfo NormalNode
  Sprintf (stringsTrimRight normalNodeTemplate "\n")
    [n.Name, n.Status, role, n.Type', n.IP, stringsTrim nodeInfo.CommonNodeInfo.Description "\n"]

/-- Go `displayNormalNodeDetails`. -/
def displayNormalNodeDetails (w : Writer) (nodes : List normalNode) : Writer :=
  if nodes.length = 0 then w
  else
    let w := PrintLine w
      ["===================================== GPU MODE: None ======================================="]
    let w := nodes.foldl (fun w node => PrintLine w [node.WideFormat NormalNode]) w
    PrintLine w [""]

/-- The body of the loop of `displayNormalNodeSummary`: the fields printed for one node. -/
def summaryItems (node : normalNode) (isUnhealthy showMode : Bool) : List String :=
  let nodeInfo := node.convert2NodeInfo NormalNode
  let items : List String := []
  let items := items ++ [node.Name]
  let items := items ++ [node.IP]
  let role := nodeInfo.CommonNodeInfo.Role
  let role := if role = "" then "<none>" else role
  let items := items ++ [role]
  let items := items ++ [node.Status]
  let items := items ++ ["0"]
  let items := items ++ ["0"]
  let items :=
    if showMode then
      NodeTypeSlice.foldl
        (fun items typeInfo => if typeInfo.Name = NormalNode then items ++ [typeInfo.Alias] else items)
        items
    else items
  let items := if isUnhealthy then items ++ [Sprintf "0" []] else items
  items

/-- Go `displayNormalNodeSummary`: the writer after the call and the three returned totals. -/
def displayNormalNodeSummary (w : Writer) (nodes : List normalNode) (isUnhealthy showMode : Bool) :
    Writer × Int × Int × Int :=
  let w := nodes.foldl
    (fun w node => PrintLine w (summaryItems NormalNode NodeTypeSlice node isUnhealthy showMode)) w
  (w, 0, 0, 0)

/-- Go `nodeProcesser`. -/
structure nodeProcesser where
  nodeType : NodeType
  key : String
  builder : V1Node → List V1Pod → Int → buildNodeArgs → Except String normalNode
  canBuildNode : V1Node → Bool
  displayNodesDetails : Writer → List normalNode → Writer
  displayNodesSummary : Writer → List normalNode → Bool → Bool → Writer × Int × Int × Int

/-- Go `NewNormalNodeProcesser`. -/
def NewNormalNodeProcesser : nodeProcesser :=
  { nodeType := NormalNode
    key := "normalNodes"
    builder := NewNormalNode NormalNode
    canBuildNode := fun _node => true
    displayNodesDetails := displayNormalNodeDetails NormalNode
    displayNodesSummary := displayNormalNodeSummary NormalNode NodeTypeSlice }

end Types

/-! ## Go errors -/

/-- A Go `error` value: the sentinel `types.ErrTrainingJobNotFound`, or an error carrying a
message (as built by `fmt.Errorf`). -/
inductive GoError where
  | ErrTrainingJobNotFound
  | errorf (msg : String)
  deriving DecidableEq, Repr

/-! ## `pkg/apis/arenaclient/training_client.go` -/

/-- Go `types.TrainingJobType`, a string type. -/
abbrev TrainingJobType := String

/-- Go `TrainingJobClient` (the fields that `Delete` reads). -/
structure TrainingJobClient where
  namespace' : String
  arenaSystemNamespace : String
  deriving DecidableEq, Repr

/-- The outcome of a run of `Delete`: the returned error (`none` is Go `nil`), the cluster after
the run, and the job names `training.DeleteTrainingJob` was invoked with, in call order. -/
structure DeleteRun (σ : Type) where
  err : Option GoError
  cluster : σ
  invoked : List String

section Training

-- `training.DeleteTrainingJob(jobName, namespace, jobType)` lives in package `training`; it is
-- a parameter acting on an arbitrary cluster state `σ`.
variable {σ : Type}
  (DeleteTrainingJob : String → String → TrainingJobType → σ → Option GoError × σ)

/-- The `for _, jobName := range jobNames` loop of `TrainingJobClient.Delete`. -/
def TrainingJobClient.deleteLoop (t : TrainingJobClient) (jobType : TrainingJobType) :
    List String → σ → List String → DeleteRun σ
  | [], cluster, invoked => ⟨none, cluster, invoked⟩
  | jobName :: rest, cluster, invoked =>
    match DeleteTrainingJob jobName t.namespace' jobType cluster with
    | (some err, cluster) =>
      if err = GoError.ErrTrainingJobNotFound then ⟨none, cluster, invoked ++ [jobName]⟩
      else ⟨some err, cluster, invoked ++ [jobName]⟩
    | (none, cluster) => TrainingJobClient.deleteLoop t jobType rest cluster (invoked ++ [jobName])

/-- Go `(*TrainingJobClient).Delete`. -/
def TrainingJobClient.Delete (t : TrainingJobClient) (jobType : TrainingJobType)
    (jobNames : List String) (cluster : σ) : DeleteRun σ :=
  TrainingJobClient.deleteLoop DeleteTrainingJob t jobType jobNames cluster []

end Training

/-- A cluster holding training jobs by name, with the deletion one expects of it: deleting a
job that exists removes it, deleting one that does not reports `ErrTrainingJobNotFound`. -/
def clusterDeleteTrainingJob (jobName : String) (_ns : String) (_jobType : TrainingJobType)
    (cluster : List String) : Option GoError × List String :=
  if jobName ∈ cluster then (none, cluster.erase jobName)
  else (some GoError.ErrTrainingJobNotFound, cluster)

/-! ## `cmd/arena/commands/serve_delete.go` -/

/-- An element of the slice returned by `ListServingsByName`; only `Version` is read. -/
structure Serving where
  Name : String
  Version : String
  deriving DecidableEq, Repr

/-- The functions of other packages that `serve delete` calls, and the package-level
`namespace`. -/
structure ServeEnv where
  namespace' : String
  helmDeleteRelease : String → Option GoError
  ListServingsByName : String → Except GoError (List Serving)
  getServingTypes : String → String → List String
  workflowDeleteJob : String → String → String → Option GoError

/-- The package-level variables `servingVersion` and `servingType` (bound to the flags
`--version` and `--type`), together with the record of the calls
`workflow.DeleteJob(name, namespace, type)` made so far. -/
structure ServeState where
  servingVersion : String
  servingType : String
  deleteJobCalls : List (String × String × String)
  deriving DecidableEq, Repr

/-- Step 1 of `deleteServingJob`: if `servingVersion` is not set, detect it. -/
def detectServingVersion (env : ServeEnv) (st : ServeState) (servingJob : String) :
    Except GoError ServeState :=
  if st.servingVersion = "" then
    match env.ListServingsByName servingJob with
    | .error err => .error err
    | .ok servings =>
      if servings.length = 0 then
        .error (.errorf (Sprintf
          "There is no serving job found with the name %s, please check it with `arena serve list | grep %s`"
          [servingJob, servingJob]))
      else if servings.length > 1 then
        .error (.errorf (Sprintf
          "There are more than one serving job found with the name %s, please delete it with `arena serve delete %s --version \x7bversion\x7d`"
          [servingJob, servingJob]))
      else
        match servings with
        | s0 :: _ => .ok { st with servingVersion := s0.Version }
        | [] => .ok st
  else .ok st

/-- Step 2 of `deleteServingJob`: if `servingType` is not set, detect it. -/
def detectServingType (env : ServeEnv) (st : ServeState) (servingJob servingJobWithVersion : String) :
    Except GoError ServeState :=
  if st.servingType = "" then
    let servingTypes := env.getServingTypes servingJobWithVersion env.namespace'
    if servingTypes.length = 0 then
      .error (.errorf (Sprintf
        "There is no serving job found with the name %s with version %s, please check it with `arena serve list | grep %s`"
        [servingJob, st.servingType, servingJob]))
    else if servingTypes.length > 1 then
      .error (.errorf (Sprintf
        "There are more than one serving job found with the name %s, please check it with `arena serve list | grep %s`"
        [servingJob, servingJob]))
    else
      match servingTypes with
      | t0 :: _ => .ok { st with servingType := t0 }
      | [] => .ok st
  else .ok st

/-- Go `deleteServingJob`: the returned error and the package state after the call. -/
def deleteServingJob (env : ServeEnv) (st : ServeState) (servingJob : String) :
    Option GoError × ServeState :=
  match env.helmDeleteRelease servingJob with
  | none => (none, st)
  | some _ =>
    match detectServingVersion env st servingJob with
    | .error err => (some err, st)
    | .ok st =>
      let servingJobWithVersion := servingJob ++ "-" ++ st.servingVersion
      match detectServingType env st servingJob servingJobWithVersion with
      | .error err => (some err, st)
      | .ok st =>
        let st := { st with
          deleteJobCalls :=
            st.deleteJobCalls ++ [(servingJobWithVersion, env.namespace', st.servingType)] }
        match env.workflowDeleteJob servingJobWithVersion env.namespace' st.servingType with
        | some err => (some err, st)
        | none => (none, st)

/-- The job loop of the `Run` function of `NewServingDeleteCommand`: the exit code and the
package state when `os.Exit` is reached.  `versionFlag` and `typeFlag` are the values of
`--version` and `--type` (empty when the flag is not given). -/
def servingDeleteRun (env : ServeEnv) (versionFlag typeFlag : String) (args : List String) :
    Int × ServeState :=
  if args.length = 0 then (1, ⟨versionFlag, typeFlag, []⟩)
  else
    args.foldl
      (fun (acc : Int × ServeState) jobName =>
        match deleteServingJob env acc.2 jobName with
        | (some _, st) => (2, st)
        | (none, st) => (acc.1, st))
      (0, ⟨versionFlag, typeFlag, []⟩)

/-- A cluster with two serving jobs, `a` at version `v1` of type `tf-serving` and `b` at version
`v2` of type `custom`, neither of them a helm release. -/
def twoServings : ServeEnv where
  namespace' := "default"
  helmDeleteRelease := fun name => some (.errorf ("release: \"" ++ name ++ "\" not found"))
  ListServingsByName := fun name =>
    if name = "a" then .ok [⟨"a", "v1"⟩]
    else if name = "b" then .ok [⟨"b", "v2"⟩]
    else .ok []
  getServingTypes := fun name _ns =>
    if name = "a-v1" then ["tf-serving"]
    else if name = "b-v2" then ["custom"]
    else []
  workflowDeleteJob := fun _ _ _ => none

/-- A cluster with one serving `a` at version `v1` for which no serving type can be found. -/
def untypedServing : ServeEnv where
  namespace' := "default"
  helmDeleteRelease := fun name => some (.errorf ("release: \"" ++ name ++ "\" not found"))
  ListServingsByName := fun name => if name = "a" then .ok [⟨"a", "v1"⟩] else .ok []
  getServingTypes := fun _ _ => []
  workflowDeleteJob := fun _ _ _ => none

/-! ## Specification-side vocabulary -/

/-- The role as the specification describes it: the comma-joined role list, or the placeholder
`<none>` when that join is empty. -/
def renderedRole (n : normalNode) : String :=
  if stringsJoin n.Role "," = "" then "<none>" else stringsJoin n.Role ","

/-- The alias columns as the specification describes them: one per entry of the node-type table
whose `Name` is the normal variant, holding that entry's `Alias`. -/
def normalAliases (NormalNode : NodeType) (NodeTypeSlice : List NodeTypeInfo) : List String :=
  (NodeTypeSlice.filter (fun typeInfo => decide (typeInfo.Name = NormalNode))).map NodeTypeInfo.Alias

/-- The value of a plain decimal string (`none` if it is empty or has a non-digit). -/
def decimalValue (s : String) : Option Nat :=
  if s.data = [] then none
  else s.data.foldl
    (fun acc c => acc.bind fun n => if c.isDigit then some (10 * n + (c.toNat - 48)) else none)
    (some 0)

/-- The figure printed in a column of a summary row; a missing column contributes nothing. -/
def figure (column : Option String) : Int :=
  match column.bind decimalValue with
  | some v => (v : Int)
  | none => 0

/-- The header line of the detail section of the normal variant. -/
def normalDetailsHeader : String :=
  "===================================== GPU MODE: None ======================================="

/-! ## Auxiliary lemmas -/

set_option maxRecDepth 100000 in
theorem fmtScan_template (a b c d e f : String) :
    fmtScan (stringsTrimRight normalNodeTemplate "\n").data [a, b, c, d, e, f] =
      "\nName:    ".data ++ (a.data ++ ("\nStatus:  ".data ++ (b.data ++ ("\nRole:    ".data ++
        (c.data ++ ("\nType:    ".data ++ (d.data ++ ("\nAddress: ".data ++ (e.data ++
        ("\nDescription:\n".data ++ (f.data ++
        "\n-----------------------------------------------------------------------------------------".data))))))))))) := by
  rfl

theorem Sprintf_zero : Sprintf "0" [] = "0" := by decide

theorem decimalValue_zero : decimalValue "0" = some 0 := by decide

theorem figure_zero : figure (some "0") = 0 := by
  simp [figure, decimalValue_zero]

theorem foldl_PrintLine {α : Type} (f : α → List String) (xs : List α) (w : Writer) :
    xs.foldl (fun w x => PrintLine w (f x)) w = w ++ xs.map f := by
  induction xs generalizing w with
  | nil => simp
  | cons x xs ih =>
    rw [List.foldl_cons, ih]
    simp [PrintLine]

theorem foldl_alias (N : NodeType) (slice : List NodeTypeInfo) (init : List String) :
    slice.foldl
        (fun items typeInfo => if typeInfo.Name = N then items ++ [typeInfo.Alias] else items) init
      = init ++ normalAliases N slice := by
  induction slice generalizing init with
  | nil => simp [normalAliases]
  | cons t ts ih =>
    by_cases h : t.Name = N
    · simp [List.foldl_cons, ih, h, normalAliases, List.filter_cons]
    · simp [List.foldl_cons, ih, h, normalAliases, List.filter_cons]

theorem summaryItems_eq (N : NodeType) (S : List NodeTypeInfo) (n : normalNode)
    (isUnhealthy showMode : Bool) :
    summaryItems N S n isUnhealthy showMode =
      [n.Name, n.IP, renderedRole n, n.Status, "0", "0"]
        ++ (if showMode then normalAliases N S else [])
        ++ (if isUnhealthy then ["0"] else []) := by
  cases isUnhealthy <;> cases showMode <;>
    simp [summaryItems, foldl_alias, normalNode.convert2NodeInfo, renderedRole, Sprintf_zero]

theorem getLast?_snoc {α : Type} (l : List α) (a : α) : (l ++ [a]).getLast? = some a := by
  induction l with
  | nil => rfl
  | cons x xs ih =>
    cases xs with
    | nil => rfl
    | cons y ys => simpa [List.getLast?_cons_cons] using ih

theorem summaryItems_getLast? (N : NodeType) (S : List NodeTypeInfo) (n : normalNode)
    (showMode : Bool) : (summaryItems N S n true showMode).getLast? = some "0" := by
  rw [summaryItems_eq]
  exact getLast?_snoc _ _

theorem displayNormalNodeSummary_eq (N : NodeType) (S : List NodeTypeInfo) (w : Writer)
    (nodes : List normalNode) (isUnhealthy showMode : Bool) :
    displayNormalNodeSummary N S w nodes isUnhealthy showMode =
      (w ++ nodes.map (fun n => summaryItems N S n isUnhealthy showMode), 0, 0, 0) := by
  simp [displayNormalNodeSummary, foldl_PrintLine]

theorem normalAliases_length (N : NodeType) (S : List NodeTypeInfo) :
    (normalAliases N S).length = S.countP (fun typeInfo => decide (typeInfo.Name = N)) := by
  simp [normalAliases, List.countP_eq_length_filter]

theorem WideFormat_eq (N : NodeType) (n : normalNode) :
    n.WideFormat N =
      "\nName:    " ++ n.Name ++ "\nStatus:  " ++ n.Status ++ "\nRole:    " ++ renderedRole n
        ++ "\nType:    " ++ n.Type' ++ "\nAddress: " ++ n.IP
        ++ "\nDescription:\n  1.This node has none gpu devices\n-----------------------------------------------------------------------------------------" := by
  have hd : stringsTrim NormalNodeDescription "\n" = "  1.This node has none gpu devices" := by
    decide
  apply String.ext
  simp only [normalNode.WideFormat, normalNode.convert2NodeInfo, Sprintf, hd, fmtScan_template,
    String.data_append, List.append_assoc, renderedRole]
  rfl

theorem displayNormalNodeDetails_cons (N : NodeType) (w : Writer) (n : normalNode)
    (ns : List normalNode) :
    displayNormalNodeDetails N w (n :: ns) =
      w ++ [[normalDetailsHeader]] ++ (n :: ns).map (fun m => [m.WideFormat N]) ++ [[""]] := by
  simp only [displayNormalNodeDetails, List.length_cons, Nat.succ_ne_zero, if_false]
  rw [foldl_PrintLine]
  simp [PrintLine, normalDetailsHeader]

theorem detectServingType_no_type (env : ServeEnv) (st : ServeState)
    (servingJob servingJobWithVersion : String) (hType : st.servingType = "")
    (hNone : env.getServingTypes servingJobWithVersion env.namespace' = []) :
    detectServingType env st servingJob servingJobWithVersion =
      .error (.errorf (Sprintf
        "There is no serving job found with the name %s with version %s, please check it with `arena serve list | grep %s`"
        [servingJob, "", servingJob])) := by
  simp [detectServingType, hType, hNone]

theorem deleteServingJob_flags_set (env : ServeEnv) (st : ServeState) (servingJob : String)
    (err : GoError) (hHelm : env.helmDeleteRelease servingJob = some err)
    (hVersion : st.servingVersion ≠ "") (hType : st.servingType ≠ "") :
    (deleteServingJob env st servingJob).2 =
      { st with deleteJobCalls := st.deleteJobCalls ++
          [(servingJob ++ "-" ++ st.servingVersion, env.namespace', st.servingType)] } := by
  simp only [deleteServingJob, hHelm, detectServingVersion, detectServingType, hVersion, hType,
    if_false]
  split <;> rfl

/-! ## Properties of the normal node variant -/

/-- C1: the predicate registered by `NewNormalNodeProcesser` accepts every node, so in any
registry that contains this processer some predicate accepts any given node. -/
theorem NewNormalNodeProcesser_canBuildNode_total (N : NodeType) (S : List NodeTypeInfo) :
    (∀ node : V1Node, (NewNormalNodeProcesser N S).canBuildNode node = true) ∧
    (∀ (before after : List nodeProcesser) (node : V1Node),
      (before ++ NewNormalNodeProcesser N S :: after).any (fun p => p.canBuildNode node) = true) := by
  refine ⟨fun _ => rfl, fun before after node => ?_⟩
  simp [NewNormalNodeProcesser]

/-- C2: the rows emitted by `displayNormalNodeSummary` are the per-node rows, each of which
starts with name, IP, role, status, "0", "0"; with `isUnhealthy` set the last column is "0". -/
theorem displayNormalNodeSummary_row_prefix (N : NodeType) (S : List NodeTypeInfo) (w : Writer)
    (nodes : List normalNode) (isUnhealthy showMode : Bool) :
    (displayNormalNodeSummary N S w nodes isUnhealthy showMode).1 =
        w ++ nodes.map (fun n => summaryItems N S n isUnhealthy showMode) ∧
    (∀ n : normalNode, (summaryItems N S n isUnhealthy showMode).take 6 =
        [n.Name, n.IP, renderedRole n, n.Status, "0", "0"]) ∧
    (∀ n : normalNode, (summaryItems N S n true showMode).getLast? = some "0") := by
  refine ⟨by rw [displayNormalNodeSummary_eq], fun n => ?_, fun n => summaryItems_getLast? N S n _⟩
  rw [summaryItems_eq]
  simp

/-- C3: the Role line of `WideFormat` and the role column of the summary row carry the same
string, which is the comma-joined role list, or "<none>" when the join is empty, and is never
the empty string. -/
theorem normalNode_role_rendered (N : NodeType) (S : List NodeTypeInfo) (n : normalNode)
    (isUnhealthy showMode : Bool) :
    n.WideFormat N =
      "\nName:    " ++ n.Name ++ "\nStatus:  " ++ n.Status ++ "\nRole:    " ++ renderedRole n
        ++ "\nType:    " ++ n.Type' ++ "\nAddress: " ++ n.IP
        ++ "\nDescription:\n  1.This node has none gpu devices\n-----------------------------------------------------------------------------------------" ∧
    (summaryItems N S n isUnhealthy showMode).get? 2 = some (renderedRole n) ∧
    renderedRole n =
      (if stringsJoin n.Role "," = "" then "<none>" else stringsJoin n.Role ",") ∧
    renderedRole n ≠ "" := by
  refine ⟨WideFormat_eq N n, ?_, rfl, ?_⟩
  · rw [summaryItems_eq]
    simp
  · unfold renderedRole
    split
    · decide
    · assumption

/-- C4: `displayNormalNodeDetails` leaves the writer untouched for an empty node list; for a
non-empty list it prints the header naming "GPU MODE: None", then the `WideFormat` text of each
node in input order, then one empty line. -/
theorem displayNormalNodeDetails_output (N : NodeType) (w : Writer) :
    displayNormalNodeDetails N w [] = w ∧
    (∀ (n : normalNode) (ns : List normalNode),
      displayNormalNodeDetails N w (n :: ns) =
        w ++ [[normalDetailsHeader]] ++ (n :: ns).map (fun m => [m.WideFormat N]) ++ [[""]]) ∧
    "GPU MODE: None".data <:+: normalDetailsHeader.data := by
  refine ⟨rfl, displayNormalNodeDetails_cons N w, ?_⟩
  exact ⟨"===================================== ".data,
    " =======================================".data, by decide⟩

/-- C5: `displayNormalNodeSummary` keeps what was already written and appends exactly one row
per node, in input order: the first columns of the new rows are the node names in order. -/
theorem displayNormalNodeSummary_one_row_per_node (N : NodeType) (S : List NodeTypeInfo)
    (w : Writer) (nodes : List normalNode) (isUnhealthy showMode : Bool) :
    ((displayNormalNodeSummary N S w nodes isUnhealthy showMode).1).take w.length = w ∧
    (((displayNormalNodeSummary N S w nodes isUnhealthy showMode).1).drop w.length).length =
      nodes.length ∧
    (((displayNormalNodeSummary N S w nodes isUnhealthy showMode).1).drop w.length).map List.head? =
      nodes.map (fun n => some n.Name) := by
  rw [displayNormalNodeSummary_eq]
  refine ⟨by simp, by simp, ?_⟩
  simp only [List.drop_left, List.map_map]
  apply List.map_congr_left
  intro n _
  simp [summaryItems_eq]

/-- C6: the three totals returned by `displayNormalNodeSummary` are (0, 0, 0), and each equals
the sum over the emitted rows of the figure printed in the matching column (5th, 6th, and the
unhealthy column when present), every such figure being the literal "0". -/
theorem displayNormalNodeSummary_totals (N : NodeType) (S : List NodeTypeInfo) (w : Writer)
    (nodes : List normalNode) (isUnhealthy showMode : Bool) :
    (displayNormalNodeSummary N S w nodes isUnhealthy showMode).2 = (0, 0, 0) ∧
    (displayNormalNodeSummary N S w [] isUnhealthy showMode) = (w, 0, 0, 0) ∧
    (∀ n : normalNode, (summaryItems N S n isUnhealthy showMode).get? 4 = some "0" ∧
      (summaryItems N S n isUnhealthy showMode).get? 5 = some "0") ∧
    ((((displayNormalNodeSummary N S w nodes isUnhealthy showMode).1).drop w.length).map
        (fun row => figure (row.get? 4))).sum =
      (displayNormalNodeSummary N S w nodes isUnhealthy showMode).2.1 ∧
    ((((displayNormalNodeSummary N S w nodes isUnhealthy showMode).1).drop w.length).map
        (fun row => figure (row.get? 5))).sum =
      (displayNormalNodeSummary N S w nodes isUnhealthy showMode).2.2.1 ∧
    ((((displayNormalNodeSummary N S w nodes true showMode).1).drop w.length).map
        (fun row => figure row.getLast?)).sum =
      (displayNormalNodeSummary N S w nodes true showMode).2.2.2 := by
  have h4 : ∀ (u : Bool) (n : normalNode), (summaryItems N S n u showMode).get? 4 = some "0" := by
    intro u n
    rw [summaryItems_eq]
    simp
  have h5 : ∀ (u : Bool) (n : normalNode), (summaryItems N S n u showMode).get? 5 = some "0" := by
    intro u n
    rw [summaryItems_eq]
    simp
  have hl : ∀ n : normalNode, (summaryItems N S n true showMode).getLast? = some "0" :=
    fun n => summaryItems_getLast? N S n showMode
  have hsum : ∀ (g : List String → Option String) (u : Bool),
      (∀ n : normalNode, g (summaryItems N S n u showMode) = some "0") →
      ((nodes.map (fun n => summaryItems N S n u showMode)).map (fun row => figure (g row))).sum
        = 0 := by
    intro g u hg
    induction nodes with
    | nil => simp
    | cons n ns ih => simp [hg, figure_zero, ih] at *; exact ih
  simp only [displayNormalNodeSummary_eq, List.drop_left]
  refine ⟨trivial, by simp, fun n => ⟨h4 _ n, h5 _ n⟩, ?_, ?_, ?_⟩
  · exact hsum (fun row => row.get? 4) isUnhealthy (h4 _)
  · exact hsum (fun row => row.get? 5) isUnhealthy (h5 _)
  · exact hsum (fun row => row.getLast?) true hl

/-- C9: without `showMode` a row has no alias column; with `showMode` it has, between the two
"0" columns and the optional unhealthy column, the `Alias` of every entry of `NodeTypeSlice`
named `NormalNode`; so the row length is 6, plus the number of such entries under `showMode`,
plus 1 under `isUnhealthy`. -/
theorem displayNormalNodeSummary_alias_columns (N : NodeType) (S : List NodeTypeInfo) (w : Writer)
    (nodes : List normalNode) (isUnhealthy showMode : Bool) :
    (displayNormalNodeSummary N S w nodes isUnhealthy showMode).1 =
        w ++ nodes.map (fun n => summaryItems N S n isUnhealthy showMode) ∧
    (∀ n : normalNode, summaryItems N S n isUnhealthy false =
        [n.Name, n.IP, renderedRole n, n.Status, "0", "0"]
          ++ (if isUnhealthy then ["0"] else [])) ∧
    (∀ n : normalNode, summaryItems N S n isUnhealthy true =
        [n.Name, n.IP, renderedRole n, n.Status, "0", "0"]
          ++ (S.filter (fun typeInfo => decide (typeInfo.Name = N))).map NodeTypeInfo.Alias
          ++ (if isUnhealthy then ["0"] else [])) ∧
    (∀ n : normalNode, (summaryItems N S n isUnhealthy showMode).length =
        6 + (if showMode then S.countP (fun typeInfo => decide (typeInfo.Name = N)) else 0)
          + (if isUnhealthy then 1 else 0)) := by
  refine ⟨by rw [displayNormalNodeSummary_eq], fun n => ?_, fun n => ?_, fun n => ?_⟩
  · rw [summaryItems_eq]
    simp
  · rw [summaryItems_eq]
    simp [normalAliases]
  · rw [summaryItems_eq]
    cases isUnhealthy <;> cases showMode <;> simp [normalAliases_length] <;> omega

/-! ## Job deletion -/

/-- C7, evaluated on a cluster that holds job `b` but not `a`: `Delete` of `a` and `b` returns
nil after the single call for `a`; `DeleteTrainingJob` is never invoked for `b`, which is still
in the cluster afterwards. -/
theorem Delete_stops_at_missing_job :
    (TrainingJobClient.Delete clusterDeleteTrainingJob ⟨"default", "arena-system"⟩ "tfjob"
        ["a", "b"] ["b"]).err = none ∧
    (TrainingJobClient.Delete clusterDeleteTrainingJob ⟨"default", "arena-system"⟩ "tfjob"
        ["a", "b"] ["b"]).invoked = ["a"] ∧
    (TrainingJobClient.Delete clusterDeleteTrainingJob ⟨"default", "arena-system"⟩ "tfjob"
        ["a", "b"] ["b"]).cluster = ["b"] := by
  decide

/-- C8, evaluated on `serve delete a b` with neither flag set: job `b` is deleted under the
version and type detected for job `a`, whereas `serve delete b` alone deletes it under its own
version `v2` and type `custom`. -/
theorem servingDeleteRun_second_job_uses_first_detection :
    (servingDeleteRun twoServings "" "" ["a", "b"]).2.deleteJobCalls =
      [("a-v1", "default", "tf-serving"), ("b-v1", "default", "tf-serving")] ∧
    (servingDeleteRun twoServings "" "" ["b"]).2.deleteJobCalls =
      [("b-v2", "default", "custom")] := by
  decide

set_option maxRecDepth 100000 in
/-- C10, evaluated on a job `a` whose version `v1` is detected and for which no serving type is
found: the second placeholder of the message is filled with the (empty) serving type, so the
message names no version although `v1` was the version searched. -/
theorem deleteServingJob_no_type_message :
    (deleteServingJob untypedServing ⟨"", "", []⟩ "a").1 =
      some (.errorf
        "There is no serving job found with the name a with version , please check it with `arena serve list | grep a`") ∧
    (deleteServingJob untypedServing ⟨"", "", []⟩ "a").2.servingVersion = "v1" := by
  decide

end Arena
